import Mathlib

/-!
Verification of the route module (app/routes/home.tsx, shipped unnamed) and the
presentational component app/welcome/welcome.tsx of the knx repository: a React
Router page whose loader reads the single Cloudflare environment binding
VALUE_FROM_CLOUDFLARE and passes it to the Welcome component, which renders a
static greeting and, when the message is non-empty, a banner div holding it.

The rendered markup is embedded as a tree of elements (tag, className,
children) and text leaves. JSX child expressions of the form
conditional rendering with the JavaScript and-operator are embedded by
andChild: the and-operator yields its left operand when that operand is falsy,
and the empty string is the only falsy value a string message can take; React
emits no output for an empty-string child, so the evaluated child list is
empty exactly when the message is empty.

Two embeddings of the loader are given. The typed loader follows the
TypeScript types of the route module. The untyped loaderJs follows raw
JavaScript evaluation of the loader body, where property access on an object
yields the bound value or undefined and never throws, while property access on
undefined throws a TypeError; this second embedding settles the claims about
absent environment bindings and about the loader never raising.
-/

/-- A node of the rendered output: an element with its tag, its className and
its children, or a text leaf. Only the className attribute occurs in this
component, so it is the only attribute carried. -/
inductive Node where
  | text (s : String)
  | element (tag : String) (className : String) (children : List Node)
deriving Repr

/-- The className of the banner div of welcome.tsx line 14. -/
def bannerClass : String := "mt-8 p-4 bg-white dark:bg-gray-800 rounded-lg shadow"

/-- The JSX child expression of welcome.tsx line 13, the message followed by
the and-operator and the banner: JavaScript yields the left operand when it is
falsy, and the empty string is the only falsy string; React renders an
empty-string child as no output, so the child list is empty exactly then. -/
def andChild (message : String) (n : Node) : List Node :=
  if message = "" then [] else [n]

/-- The heading of welcome.tsx lines 7 to 9. -/
def headingNode : Node :=
  Node.element "h1" "text-5xl font-bold mb-6 text-gray-800 dark:text-white"
    [Node.text "Kognova Nexus MotherFucker"]

/-- The subtitle paragraph of welcome.tsx lines 10 to 12. -/
def subtitleNode : Node :=
  Node.element "p" "text-xl text-gray-600 dark:text-gray-300"
    [Node.text "A centralized document repository"]

/-- The Welcome component of welcome.tsx: a main wrapper around a centered
div holding the heading, the subtitle paragraph and, conditionally, the
banner div with a paragraph holding the message. -/
def Welcome (message : String) : Node :=
  Node.element "main" "flex items-center justify-center min-h-screen bg-gray-100 dark:bg-gray-900"
    [ Node.element "div" "text-center p-8"
        ([ headingNode, subtitleNode ]
         ++ andChild message
              (Node.element "div" bannerClass
                 [Node.element "p" "text-gray-700 dark:text-gray-300" [Node.text message]])) ]

/-- Whether a node of the rendered output is, or contains, the banner div:
a div element whose className is the banner className. -/
def containsBanner : Node → Bool
  | Node.text _ => false
  | Node.element t c ch => (t == "div" && c == bannerClass) || goList ch
where
  goList : List Node → Bool
  | [] => false
  | n :: ns => containsBanner n || goList ns

/-- The first banner div of a rendered tree, when one is present. -/
def findBanner : Node → Option Node
  | Node.text _ => none
  | Node.element t c ch =>
      if t == "div" && c == bannerClass then some (Node.element t c ch) else goList ch
where
  goList : List Node → Option Node
  | [] => none
  | n :: ns =>
      match findBanner n with
      | some b => some b
      | none => goList ns

/-- A rendered tree with every banner div removed from the children lists:
what is left of the output outside the banner. -/
def removeBanner : Node → Node
  | Node.text s => Node.text s
  | Node.element t c ch => Node.element t c (goList ch)
where
  goList : List Node → List Node
  | [] => []
  | n :: ns =>
      match n with
      | Node.element t c ch =>
          if t == "div" && c == bannerClass then goList ns
          else removeBanner (Node.element t c ch) :: goList ns
      | Node.text s => Node.text s :: goList ns

/-- The main wrapper and centered div of welcome.tsx lines 5 and 6 around a
given inner child list. -/
def mainFrame (inner : List Node) : Node :=
  Node.element "main" "flex items-center justify-center min-h-screen bg-gray-100 dark:bg-gray-900"
    [Node.element "div" "text-center p-8" inner]

/-- Modelled from the spec: the Cloudflare environment of the request context.
The generated worker configuration that types it is not under src; the spec
says the loader reads one environment-sourced string, with no invariant
beyond string or empty, so VALUE_FROM_CLOUDFLARE is a string binding and
otherBindings stands for any other environment data, which this code never
reads. -/
structure Env where
  VALUE_FROM_CLOUDFLARE : String
  otherBindings : List (String × String)

/-- The cloudflare field of the load context, as the route module accesses it. -/
structure CloudflareContext where
  env : Env

/-- The application load context the hosting runtime supplies to the loader. -/
structure AppLoadContext where
  cloudflare : CloudflareContext

/-- The loader arguments of the route module: the destructured context. -/
structure LoaderArgs where
  context : AppLoadContext

/-- The object the loader returns: a single message field. -/
structure LoaderData where
  message : String
deriving Repr, DecidableEq

/-- The loader of the route module, lines 11 to 13: it returns an object whose
message field is the VALUE_FROM_CLOUDFLARE binding of the context's
Cloudflare environment. -/
def loader (args : LoaderArgs) : LoaderData :=
  { message := args.context.cloudflare.env.VALUE_FROM_CLOUDFLARE }

/-- The component props of the route module: the loader data supplied to the
default export. -/
structure ComponentProps where
  loaderData : LoaderData

/-- The Home component of the route module, lines 15 to 17: it renders the
Welcome component applied to the message field of the loader data. -/
def Home (props : ComponentProps) : Node :=
  Welcome props.loaderData.message

/-- One entry of the meta list: a title entry or a name and content entry. -/
inductive MetaDescriptor where
  | title (t : String)
  | nameContent (name : String) (content : String)
deriving Repr, DecidableEq

/-- The meta arguments of the route module: the route's loader data and the
location, which the meta function names with an underscore and ignores. -/
structure MetaArgs where
  loaderData : LoaderData
  pathname : String

/-- The meta function of the route module, lines 4 to 9: it ignores its
argument and returns the title entry and the description entry. -/
def meta (_args : MetaArgs) : List MetaDescriptor :=
  [ MetaDescriptor.title "Kognova Nexus",
    MetaDescriptor.nameContent "description" "Centralized Document Repository" ]

/-- A raw JavaScript value, as far as the loader body can encounter one: the
undefined value, a string, or an object with its property list. -/
inductive JsVal where
  | undef
  | str (s : String)
  | obj (props : List (String × JsVal))
deriving Repr

/-- Property lookup in a JavaScript object's property list. -/
def lookupProp : List (String × JsVal) → String → Option JsVal
  | [], _ => none
  | (k, v) :: rest, key => if k = key then some v else lookupProp rest key

/-- JavaScript property access: on undefined it throws a TypeError, on a
string it yields undefined for the keys this code reads, and on an object it
yields the bound value, or undefined when the key is absent, never throwing. -/
def JsVal.get : JsVal → String → Except String JsVal
  | JsVal.undef, key =>
      Except.error ("TypeError: Cannot read properties of undefined (reading " ++ key ++ ")")
  | JsVal.str _, _ => Except.ok JsVal.undef
  | JsVal.obj props, key => Except.ok ((lookupProp props key).getD JsVal.undef)

/-- Raw JavaScript evaluation of the loader body: the property chain from the
context through cloudflare and env to VALUE_FROM_CLOUDFLARE, each access
propagating a thrown TypeError, and on success the object literal with the
single message key. -/
def loaderJs (context : JsVal) : Except String JsVal :=
  match JsVal.get context "cloudflare" with
  | Except.error e => Except.error e
  | Except.ok cf =>
    match JsVal.get cf "env" with
    | Except.error e => Except.error e
    | Except.ok env =>
      match JsVal.get env "VALUE_FROM_CLOUDFLARE" with
      | Except.error e => Except.error e
      | Except.ok v => Except.ok (JsVal.obj [("message", v)])

/-- A request context as the hosting runtime supplies it: an object whose
cloudflare property is an object whose env property is an object. Nothing is
required of the env object's bindings. -/
def wellFormedContext (context : JsVal) : Prop :=
  ∃ props cfProps envProps,
    context = JsVal.obj props ∧
    lookupProp props "cloudflare" = some (JsVal.obj cfProps) ∧
    lookupProp cfProps "env" = some (JsVal.obj envProps)

/-- Modelled from the spec: a request context whose environment carries the
VALUE_FROM_CLOUDFLARE binding as a string. The generated worker configuration
that guarantees this typing is not under src; the spec says the loader reads
one environment-sourced string whose only invariant is string or empty. -/
def typedContext (context : JsVal) : Prop :=
  ∃ props cfProps envProps s,
    context = JsVal.obj props ∧
    lookupProp props "cloudflare" = some (JsVal.obj cfProps) ∧
    lookupProp cfProps "env" = some (JsVal.obj envProps) ∧
    lookupProp envProps "VALUE_FROM_CLOUDFLARE" = some (JsVal.str s)

/-- C1: for every string message passed to the Welcome component, the rendered
output contains the banner div (the rounded, shadowed container) exactly when
the message is non-empty; for the empty string the banner div is absent. -/
theorem welcome_banner_iff_nonempty (m : String) :
    containsBanner (Welcome m) = true ↔ m ≠ "" := by
  by_cases h : m = ""
  · subst h
    decide
  · refine ⟨fun _ => h, fun _ => ?_⟩
    unfold Welcome andChild
    rw [if_neg h]
    rfl

/-- C2: for every request context, the loader returns an object whose message
field is exactly the VALUE_FROM_CLOUDFLARE binding read from the context,
and nothing else. -/
theorem loader_reads_single_binding (args : LoaderArgs) :
    loader args = { message := args.context.cloudflare.env.VALUE_FROM_CLOUDFLARE } :=
  rfl

/-- C3: for every request context carrying the string binding the worker
configuration guarantees, the loader's message field is a string, and the
Welcome component is defined on every string message. -/
theorem loader_message_is_string (context : JsVal) (h : typedContext context) :
    (∃ s, loaderJs context = Except.ok (JsVal.obj [("message", JsVal.str s)])) ∧
    ∀ m : String, ∃ n : Node, Welcome m = n := by
  obtain ⟨props, cfProps, envProps, s, hc, h1, h2, h3⟩ := h
  subst hc
  refine ⟨⟨s, ?_⟩, fun m => ⟨Welcome m, rfl⟩⟩
  simp [loaderJs, JsVal.get, h1, h2, h3]

/-- Witness for C3 at a context binding VALUE_FROM_CLOUDFLARE to a string. -/
theorem loader_message_is_string_witness :
    ∃ s, loaderJs (JsVal.obj [("cloudflare", JsVal.obj [("env",
        JsVal.obj [("VALUE_FROM_CLOUDFLARE", JsVal.str "Hello")])])]) =
      Except.ok (JsVal.obj [("message", JsVal.str s)]) :=
  (loader_message_is_string _
    ⟨[("cloudflare", JsVal.obj [("env", JsVal.obj [("VALUE_FROM_CLOUDFLARE", JsVal.str "Hello")])])],
      [("env", JsVal.obj [("VALUE_FROM_CLOUDFLARE", JsVal.str "Hello")])],
      [("VALUE_FROM_CLOUDFLARE", JsVal.str "Hello")],
      "Hello", rfl, rfl, rfl, rfl⟩).1

/-- C4: for every request context the runtime can supply, the env binding
present or absent, the loader returns normally rather than throwing, and the
Welcome component returns rendered output on every string message. -/
theorem loader_and_welcome_total (context : JsVal) (h : wellFormedContext context) :
    (∃ r, loaderJs context = Except.ok r) ∧
    ∀ m : String, ∃ n : Node, Welcome m = n := by
  obtain ⟨props, cfProps, envProps, hc, h1, h2⟩ := h
  subst hc
  refine ⟨⟨JsVal.obj [("message",
      (lookupProp envProps "VALUE_FROM_CLOUDFLARE").getD JsVal.undef)], ?_⟩,
    fun m => ⟨Welcome m, rfl⟩⟩
  simp [loaderJs, JsVal.get, h1, h2]

/-- Witness for C4 at a context whose environment has no bindings at all. -/
theorem loader_and_welcome_total_witness :
    ∃ r, loaderJs (JsVal.obj [("cloudflare", JsVal.obj [("env", JsVal.obj [])])]) =
      Except.ok r :=
  (loader_and_welcome_total _
    ⟨[("cloudflare", JsVal.obj [("env", JsVal.obj [])])],
      [("env", JsVal.obj [])], [], rfl, rfl, rfl⟩).1

/-- C5: the Home route component renders exactly Welcome applied to the
loader result's message field, so the string reaching the Welcome component
equals the string the loader read from the environment. -/
theorem home_renders_loader_message (args : LoaderArgs) :
    Home { loaderData := loader args } = Welcome (loader args).message ∧
    (loader args).message = args.context.cloudflare.env.VALUE_FROM_CLOUDFLARE :=
  ⟨rfl, rfl⟩

/-- C6: the loader depends on nothing but the VALUE_FROM_CLOUDFLARE binding:
two contexts agreeing on it give identical loader results whatever their
other environment bindings, and the Welcome output agrees as well. -/
theorem pipeline_noninterference (a1 a2 : LoaderArgs)
    (h : a1.context.cloudflare.env.VALUE_FROM_CLOUDFLARE =
      a2.context.cloudflare.env.VALUE_FROM_CLOUDFLARE) :
    loader a1 = loader a2 ∧
    Welcome a1.context.cloudflare.env.VALUE_FROM_CLOUDFLARE =
      Welcome a2.context.cloudflare.env.VALUE_FROM_CLOUDFLARE := by
  refine ⟨?_, by rw [h]⟩
  simp [loader, h]

/-- Witness for C6 at two contexts differing only in their other bindings. -/
theorem pipeline_noninterference_witness :
    loader ⟨⟨⟨⟨"v", []⟩⟩⟩⟩ = loader ⟨⟨⟨⟨"v", [("OTHER_VAR", "x")]⟩⟩⟩⟩ :=
  (pipeline_noninterference _ _ rfl).1

/-- C7: everything outside the optional banner is static: the outputs on any
two messages agree once banner divs are removed, and each output is the main
frame around the heading, the subtitle paragraph and at most a banner. -/
theorem welcome_static_outside_banner (m1 m2 : String) :
    removeBanner (Welcome m1) = removeBanner (Welcome m2) ∧
    (∃ r1, Welcome m1 = mainFrame ([headingNode, subtitleNode] ++ r1)) ∧
    (∃ r2, Welcome m2 = mainFrame ([headingNode, subtitleNode] ++ r2)) := by
  have strip : ∀ m : String, removeBanner (Welcome m) = mainFrame [headingNode, subtitleNode] := by
    intro m
    by_cases h : m = ""
    · subst h
      rfl
    · unfold Welcome andChild
      rw [if_neg h]
      rfl
  refine ⟨(strip m1).trans (strip m2).symm, ⟨_, rfl⟩, ⟨_, rfl⟩⟩

/-- C8: the route's meta function ignores its argument and always returns
exactly the title entry and the description entry. -/
theorem meta_constant (a1 a2 : MetaArgs) :
    meta a1 = meta a2 ∧
    meta a1 = [ MetaDescriptor.title "Kognova Nexus",
      MetaDescriptor.nameContent "description" "Centralized Document Repository" ] :=
  ⟨rfl, rfl⟩

/-- C9: for every non-empty message, the banner div's paragraph holds the
message verbatim, with no transformation applied. -/
theorem banner_holds_message_verbatim (m : String) (h : m ≠ "") :
    findBanner (Welcome m) = some (Node.element "div" bannerClass
      [Node.element "p" "text-gray-700 dark:text-gray-300" [Node.text m]]) := by
  unfold Welcome andChild
  rw [if_neg h]
  rfl

/-- Witness for C9 at a concrete non-empty message. -/
theorem banner_holds_message_verbatim_witness :
    findBanner (Welcome "Hello from Cloudflare") = some (Node.element "div" bannerClass
      [Node.element "p" "text-gray-700 dark:text-gray-300"
        [Node.text "Hello from Cloudflare"]]) :=
  banner_holds_message_verbatim "Hello from Cloudflare" (by decide)

/-- C10: whenever the loader returns, its result object has the single key
message and no other key, so nothing else is forwarded to the page. -/
theorem loader_result_single_key (context r : JsVal)
    (h : loaderJs context = Except.ok r) :
    ∃ v, r = JsVal.obj [("message", v)] := by
  unfold loaderJs at h
  split at h
  · exact Except.noConfusion h
  · split at h
    · exact Except.noConfusion h
    · split at h
      · exact Except.noConfusion h
      · injection h with h4
        exact ⟨_, h4.symm⟩

/-- Witness for C10 at a concrete context. -/
theorem loader_result_single_key_witness :
    ∃ v, JsVal.obj [("message", JsVal.str "Hello")] = JsVal.obj [("message", v)] :=
  loader_result_single_key
    (JsVal.obj [("cloudflare", JsVal.obj [("env",
      JsVal.obj [("VALUE_FROM_CLOUDFLARE", JsVal.str "Hello")])])])
    (JsVal.obj [("message", JsVal.str "Hello")]) rfl
